import Mathlib

/-!
Verification of the incremental GitHub crawl-and-enrichment pipeline
implemented in scripts/fetch_data.py.

The Python source is shallowly embedded below.  Network transport, the
filesystem and the clock are modelled as explicit oracle arguments
(a request that failed at the HTTP layer is the oracle returning none,
mirroring the client's error-to-null translation); the process-wide
request counter is threaded explicitly.  Machine integers do not
overflow in the source (Python ints are unbounded), so Nat/Int/Rat are
used directly.
-/

/-- Constant MAX_REQUESTS from fetch_data.py (the per-run request budget). -/
def MAX_REQUESTS : Nat := 2000

/-- Constant TOPIC_MAP from fetch_data.py, in source order (Python dicts
iterate in insertion order). -/
def TOPIC_MAP : List (String × List String) :=
  [("web", ["web", "website", "webapp", "frontend", "backend", "fullstack", "http", "server", "nextjs", "react", "vue"]),
   ("ai", ["ai", "ml", "artificial-intelligence", "machine-learning", "deep-learning", "nlp", "computer-vision", "llm", "agent"]),
   ("database", ["database", "sql", "nosql", "storage"]),
   ("mobile", ["mobile", "android", "ios", "flutter", "react-native"]),
   ("game", ["game", "gamedev", "gaming", "unity", "unreal"]),
   ("cli", ["cli", "command-line", "terminal", "shell"]),
   ("data-science", ["data-science", "data-analysis", "data-visualization", "pandas", "numpy", "jupyter"]),
   ("devops", ["devops", "docker", "kubernetes", "ci-cd", "automation", "terraform"]),
   ("security", ["security", "cybersecurity", "vulnerability", "pentesting"]),
   ("blockchain", ["blockchain", "crypto", "web3"]),
   ("framework", ["framework", "library"]),
   ("testing", ["testing", "test", "tdd", "bdd"]),
   ("tool", ["tool", "utility", "plugin"])]

/-- Constant ACRONYMS from fetch_data.py. -/
def ACRONYMS : List String := ["AI", "ML", "NLP", "API", "CLI", "CI-CD", "SQL"]

/-- A repository item as yielded by the search listing (only the fields the
main loop reads: repo dicts are passed whole to process_repository, which
immediately re-fetches details, so the id is the load-bearing field). -/
structure Repo where
  id : Nat
  full_name : String
deriving Repr, DecidableEq

/-- One event of a repository event feed (GitHubAPI.get_new_stars_count
reads only the created_at timestamp, modelled as an integer time, and the
type string). -/
structure Event where
  created_at : Int
  type : String
deriving Repr, DecidableEq

/-- The parsed detail response used by process_repository
(repo_details[...] accesses in fetch_data.py).  language and description
may be JSON null, hence Option. -/
structure RepoDetails where
  id : Nat
  full_name : String
  html_url : String
  stargazers_count : Nat
  language : Option String
  description : Option String
  topics : List String
  size : Nat
  updated_at : String
  pushed_at : String
deriving Repr, DecidableEq

/-- The parts of a contributors-listing response that
GitHubAPI.get_contributors_count inspects: the HTTP status, the number
extracted by the regex search on the Link header when it matches
(re.search for an ampersand page number followed by a rel last marker,
abstracted here as the optional matched number), and the length of the
JSON body list. -/
structure ContribResp where
  status : Nat
  linkLastPage : Option Nat
  bodyLen : Nat
deriving Repr, DecidableEq

/-- One catalog entry: the dict built and returned by process_repository. -/
structure Entry where
  id : Nat
  name : String
  url : String
  stars : Nat
  language : Option String
  keywords : List String
  new_open_issues : Nat
  new_stars_30d : Nat
  contributors : Nat
  code_line_count : Nat
  last_updated_repo : String
  pushed_at : String
  date_fetched : String
deriving Repr, DecidableEq

/-- Outcome of reading a JSON file from disk: the file may be absent,
present but undecodable, or parsed successfully. -/
inductive FileRead (α : Type) where
  | absent
  | malformed
  | parsed (a : α)
deriving Repr, DecidableEq

/-- The in-memory catalog: the projects dict of main, keyed by repository
id, in insertion order (Python dicts preserve insertion order). -/
abbrev Catalog := List (Nat × Entry)

/-- Dict lookup for the catalog (Python membership test and indexing on
the projects dict, whose keys are the decimal string of the id, in
bijection with the id itself). -/
def dictLookup (projects : Catalog) (id : Nat) : Option Entry :=
  match projects with
  | [] => none
  | (k, v) :: rest => if k = id then some v else dictLookup rest id

/-- GitHubAPI._make_request: raises when the budget is exhausted (the
error carries the unchanged counter, since the raise happens before the
increment), otherwise increments the counter and returns the transport
outcome, where none models a caught RequestException translated to a
null result. -/
def make_request {α : Type} (request_count : Nat) (transport : Option α) :
    Except (String × Nat) (Nat × Option α) :=
  if MAX_REQUESTS ≤ request_count then .error ("Request limit reached", request_count)
  else .ok (request_count + 1, transport)

/-- GitHubAPI.list_repositories result handling: a null response from the
client becomes an empty item list (the transport argument is the parsed
items of a successful response). -/
def list_repositories (resp : Option (List Repo)) : List Repo :=
  match resp with
  | some items => items
  | none => []

/-- GitHubAPI.get_recent_open_issues_count result handling: none means
the request failed (count 0); some tc is the parsed body, whose
total_count field defaults to 0 when missing. -/
def get_recent_open_issues_count (resp : Option (Option Nat)) : Nat :=
  match resp with
  | none => 0
  | some tc => tc.getD 0

/-- GitHubAPI.get_contributors_count: 0 on a failed request or HTTP 204,
else the last-page number from the Link header when the regex matched,
else the length of the returned list. -/
def get_contributors_count (resp : Option ContribResp) : Nat :=
  match resp with
  | none => 0
  | some r =>
    if r.status = 204 then 0
    else
      match r.linkLastPage with
      | some n => n
      | none => r.bodyLen

/-- The event scan of one page inside GitHubAPI.get_new_stars_count: the
for loop over events returns the running count the moment an event older
than date_since is seen (Bool true), else counts WatchEvents. -/
def scanEvents (date_since : Int) : List Event → Nat → Nat × Bool
  | [], count => (count, false)
  | e :: rest, count =>
    if e.created_at < date_since then (count, true)
    else scanEvents date_since rest (if e.type = "WatchEvent" then count + 1 else count)

/-- The while loop of GitHubAPI.get_new_stars_count.  feed page is the
transport outcome for that page: none for a failed request, otherwise the
parsed event list together with whether the response carried a next link.
The returned list records every page number for which a request was made. -/
def starsLoop (feed : Nat → Option (List Event × Bool)) (date_since : Int)
    (page count : Nat) (fetched : List Nat) : Nat × List Nat :=
  let fetched := fetched ++ [page]
  match feed page with
  | none => (count, fetched)
  | some (events, hasNext) =>
    if events.isEmpty then (count, fetched)
    else
      match scanEvents date_since events count with
      | (c, true) => (c, fetched)
      | (c, false) =>
        if !hasNext then (c, fetched)
        else if page + 1 > 3 then (c, fetched)
        else starsLoop feed date_since (page + 1) c fetched
termination_by 4 - page
decreasing_by
  simp_wf
  omega

/-- GitHubAPI.get_new_stars_count: walk the event feed from page 1,
counting WatchEvents newer than date_since. -/
def get_new_stars_count (feed : Nat → Option (List Event × Bool))
    (date_since : Int) : Nat × List Nat :=
  starsLoop feed date_since 1 0 []

/-- The ordered readme filename candidates of GitHubAPI.get_readme. -/
def readmeNames : List String := ["README.md", "readme", "README", "readme.md"]

/-- The loop of GitHubAPI.get_readme: fetch n is none when the request
failed, some none when the response had no content field or the base64
body did not decode as UTF-8 (both exceptions are caught and the loop
continues), and some (some text) on success. -/
def readmeTry (fetch : String → Option (Option String)) : List String → String
  | [] => ""
  | n :: rest =>
    match fetch n with
    | some (some text) => text
    | _ => readmeTry fetch rest

/-- GitHubAPI.get_readme: try each conventional filename in order and
return empty text when none resolves. -/
def get_readme (fetch : String → Option (Option String)) : String :=
  readmeTry fetch readmeNames

/-- GitHubAPI.get_code_line_count.  free is the third component of
shutil.disk_usage when it succeeded, none when it raised (the except
clause falls through to the clone).  repo_size is the size field of the
detail response, in KB.  The skip condition is the source conjunction
repo_size * 1024 > free and repo_size / 1024 > 500 (Python true
division, hence the Rat comparison).  The first component records
whether the git clone shell command was reached.  The non-skip path
always raises: self dot _count_code_lines is a one-parameter function
(it has no self parameter), so the bound-method call with repo_name
passes two positional arguments, a TypeError; even absent that,
_count_code_lines returns an int and the final line calls .split on it,
an AttributeError.  That unconditional raise is embedded as the error
result. -/
def get_code_line_count (free : Option Nat) (repo_size : Nat) : Bool × Except String Nat :=
  let skip : Bool :=
    match free with
    | some f => decide (repo_size * 1024 > f) && decide ((repo_size : ℚ) / 1024 > 500)
    | none => false
  if skip then (false, .ok 0)
  else (true, .error "TypeError: _count_code_lines takes from 0 to 1 positional arguments but 2 were given")

/-- The tokenizer of generate_keywords second pass: re.split on the
pattern whitespace-run or comma or period.  Each maximal whitespace run
is a single delimiter; each comma and each period is its own delimiter;
empty tokens appear between adjacent delimiters, exactly as re.split
produces them.  cur holds the current token reversed; inWs is true while
consuming the tail of a whitespace run. -/
def pySplitAux : List Char → List Char → Bool → List String
  | [], cur, _ => [String.mk cur.reverse]
  | c :: rest, cur, inWs =>
    if c = ',' ∨ c = '.' then String.mk cur.reverse :: pySplitAux rest [] false
    else if c.isWhitespace then
      if inWs then pySplitAux rest [] true
      else String.mk cur.reverse :: pySplitAux rest [] true
    else pySplitAux rest (c :: cur) false

/-- re.split of the second-pass pattern over a string. -/
def pySplit (s : String) : List String := pySplitAux s.data [] false

/-- Python str.capitalize: first character uppercased, the rest
lowercased. -/
def pyCapitalize (s : String) : String :=
  match s.data with
  | [] => ""
  | c :: cs => String.mk (c.toUpper :: cs.map Char.toLower)

/-- Python set.add on the normalized accumulator, modelled as a
duplicate-free list in insertion order (only the membership view and the
cardinality of the set affect the properties proved here). -/
def setAdd (s : List String) (x : String) : List String :=
  if x ∈ s then s else s ++ [x]

/-- First pass of generate_keywords: for every topic, every TOPIC_MAP
category whose synonym list contains the lowercased topic is added. -/
def topicsPass (topics : List String) : List String :=
  topics.foldl
    (fun acc topic =>
      TOPIC_MAP.foldl
        (fun acc2 p => if topic.toLower ∈ p.2 then setAdd acc2 p.1 else acc2)
        acc)
    []

/-- Inner loop of the generate_keywords second pass for one token: scan
TOPIC_MAP, adding a category when the token is one of its synonyms and
the category is new, breaking out as soon as three categories are
accumulated. -/
def wordScan (word : String) : List (String × List String) → List String → List String
  | [], acc => acc
  | (general_topic, specific_topics) :: rest, acc =>
    if word ∈ specific_topics ∧ general_topic ∉ acc then
      let acc2 := acc ++ [general_topic]
      if 3 ≤ acc2.length then acc2 else wordScan word rest acc2
    else wordScan word rest acc

/-- Outer loop of the generate_keywords second pass: scan the tokens,
breaking once three categories are accumulated. -/
def textPass : List String → List String → List String
  | [], acc => acc
  | w :: rest, acc =>
    let acc2 := wordScan w TOPIC_MAP acc
    if 3 ≤ acc2.length then acc2 else textPass rest acc2

/-- Rendering step of generate_keywords: the first three accumulated
categories, uppercased when the uppercasing is a recognized acronym,
else capitalized. -/
def renderKeywords (normalized : List String) : List String :=
  (normalized.take 3).map
    (fun k => if k.toUpper ∈ ACRONYMS then k.toUpper else pyCapitalize k)

/-- Fallback step of generate_keywords: when no keyword was rendered,
the language when it is truthy and not the N/A sentinel, else the
generic Tool label. -/
def applyFallback (final_keywords : List String) (language : Option String) : List String :=
  if final_keywords.isEmpty then
    match language with
    | some l => if ¬ l.isEmpty ∧ l ≠ "N/A" then [l] else ["Tool"]
    | none => ["Tool"]
  else final_keywords

/-- generate_keywords from fetch_data.py.  description and language are
Option String because the corresponding JSON fields may be null; a None
or empty description contributes nothing to the searched text, exactly
as the source conditional expression does. -/
def generate_keywords (topics : List String) (description : Option String)
    (readme_content : String) (language : Option String) : List String :=
  let normalized := topicsPass topics
  let text_to_search :=
    (match description with
     | some d => if d.isEmpty then "" else d.toLower
     | none => "") ++ " " ++ readme_content.toLower
  let normalized :=
    if normalized.length < 3 then textPass (pySplit text_to_search) normalized
    else normalized
  applyFallback (renderKeywords normalized) language

/-- process_repository from fetch_data.py.  Each sub-fetch transport
outcome is an oracle argument; now is the fetch timestamp.  A missing
detail response returns ok none (candidate silently skipped); the
code-line-count step, when its error path is taken, propagates out of
the function since nothing here catches it. -/
def process_repository (repo_details : Option RepoDetails)
    (contribResp : Option ContribResp)
    (issuesResp : Option (Option Nat))
    (feed : Nat → Option (List Event × Bool)) (date_since : Int)
    (readmeFetch : String → Option (Option String))
    (free : Option Nat) (now : String) : Except String (Option Entry) :=
  match repo_details with
  | none => .ok none
  | some d =>
    let contributors := get_contributors_count contribResp
    let new_open_issues := get_recent_open_issues_count issuesResp
    let new_stars := (get_new_stars_count feed date_since).1
    let readme_content := get_readme readmeFetch
    let keywords := generate_keywords d.topics d.description readme_content d.language
    match (get_code_line_count free d.size).2 with
    | .error e => .error e
    | .ok code_line_count =>
      .ok (some
        { id := d.id
          name := d.full_name
          url := d.html_url
          stars := d.stargazers_count
          language := d.language
          keywords := keywords
          new_open_issues := new_open_issues
          new_stars_30d := new_stars
          contributors := contributors
          code_line_count := code_line_count
          last_updated_repo := d.updated_at
          pushed_at := d.pushed_at
          date_fetched := now })

/-- load_progress from fetch_data.py.  progressFile is the read of
progress.json, whose payload is the optional last_processed_created_date
field; projectsFile is the read of projects.json, whose payload is the
optional projects list.  When progress.json is absent the function
returns early with the origin cursor and an empty dict, without reading
projects.json at all. -/
def load_progress (progressFile : FileRead (Option String))
    (projectsFile : FileRead (Option (List Entry))) : String × Catalog :=
  match progressFile with
  | .absent => ("2008-01-01", [])
  | pf =>
    let last_processed_created_date :=
      match pf with
      | .parsed (some d) => d
      | _ => "2008-01-01"
    let projects : Catalog :=
      match projectsFile with
      | .parsed (some ps) => ps.map (fun p => (p.id, p))
      | _ => []
    (last_processed_created_date, projects)

/-- save_progress from fetch_data.py: the persisted checkpoint document
is exactly the cursor handed to it. -/
def save_progress (last_processed_created_date : Nat) : Nat :=
  last_processed_created_date

/-- The for loop over one page of candidates in main: a candidate whose
id is already a key of projects is skipped; otherwise process_repository
runs (the oracle enrich gives its outcome for that candidate together
with the number of requests it consumed).  A raise propagates carrying
the projects dict as mutated so far, since the dict is shared with the
finally block.  The returned Nat is the total number of requests
consumed by the processed candidates. -/
def repoFold (enrich : Repo → Except String (Option Entry) × Nat) :
    List Repo → Catalog → Nat → Except (String × Catalog) (Catalog × Nat)
  | [], projects, used => .ok (projects, used)
  | r :: rest, projects, used =>
    if (dictLookup projects r.id).isNone then
      match enrich r with
      | (.error e, _) => .error (e, projects)
      | (.ok none, u) => repoFold enrich rest projects (used + u)
      | (.ok (some entry), u) => repoFold enrich rest (projects ++ [(r.id, entry)]) (used + u)
    else repoFold enrich rest projects used

/-- The inner pagination loop of main for one calendar day.  listResp
page is the transport outcome of the search request for that page (none
models a failed request, which list_repositories turns into an empty
page).  Each iteration first checks the request budget and raises when
it is already spent, then issues the one listing request (count + 1) and
processes the page; the day ends when a page is empty or shorter than
per_page. -/
def dayLoop (listResp : Nat → Option (List Repo))
    (enrich : Repo → Except String (Option Entry) × Nat)
    (per_page : Nat) (projects : Catalog) (count page : Nat) :
    Except (String × Catalog) (Catalog × Nat) :=
  if MAX_REQUESTS ≤ count then .error ("Request limit reached for this run.", projects)
  else
    let repos := list_repositories (listResp page)
    if repos.isEmpty then .ok (projects, count + 1)
    else
      match repoFold enrich repos projects 0 with
      | .error ep => .error ep
      | .ok (projects2, used) =>
        if repos.length < per_page then .ok (projects2, count + 1 + used)
        else dayLoop listResp enrich per_page projects2 (count + 1 + used) (page + 1)
termination_by MAX_REQUESTS - count
decreasing_by
  simp_wf
  omega

/-- The outer day loop of main with its surrounding try and finally:
days are processed from current up to endDate; after a day completes,
last_successful is set to that day and the loop advances; a raise
anywhere in a day unwinds to the finally block, which persists the
current last_successful cursor and the projects dict as mutated so far.
Dates are modelled as day ordinals, whose order agrees with the
lexicographic order of the ISO date strings of the source.  The result
is the pair handed to save_progress and save_projects_to_json. -/
def crawlDays (listResp : Nat → Nat → Option (List Repo))
    (enrich : Repo → Except String (Option Entry) × Nat)
    (current endDate : Nat) (projects : Catalog)
    (count last_successful : Nat) : Nat × Catalog :=
  if current ≤ endDate then
    match dayLoop (listResp current) enrich 100 projects count 1 with
    | .error (_, projectsErr) => (last_successful, projectsErr)
    | .ok (projects2, count2) =>
      crawlDays listResp enrich (current + 1) endDate projects2 count2 current
  else (last_successful, projects)
termination_by endDate + 1 - current
decreasing_by
  simp_wf
  omega

/-- The crawl of main from the loaded cursor: the request counter starts
at zero and last_successful starts at the loaded cursor itself. -/
def mainRun (listResp : Nat → Nat → Option (List Repo))
    (enrich : Repo → Except String (Option Entry) × Nat)
    (start endDate : Nat) (projects : Catalog) : Nat × Catalog :=
  crawlDays listResp enrich start endDate projects 0 start

/-- Modelled from the spec: the demand-index derivation belongs to the
first pipeline generation of this repository, which is not present under
src/ (src holds only the date-bucketed generation, whose
process_repository emits no demand field).  Per the spec it is the ratio
of recent open issues to recent new stars, or the raw issue count when
no new stars occurred, guarding division by zero. -/
def demand_index (new_open_issues new_stars : Nat) : ℚ :=
  if new_stars > 0 then (new_open_issues : ℚ) / new_stars
  else new_open_issues

/-- The catalog visible to the finally block at the end of the inner
loop, whether it ended normally or by a raise (the projects dict is
shared, so both outcomes expose it). -/
def resultCatalog : Except (String × Catalog) (Catalog × Nat) → Catalog
  | .ok (p, _) => p
  | .error (_, p) => p

/-- A calendar day whose inner pagination loop ran to completion without
a raise under the given oracles, from some catalog and counter state. -/
def completedDay (listResp : Nat → Nat → Option (List Repo))
    (enrich : Repo → Except String (Option Entry) × Nat) (d : Nat) : Prop :=
  ∃ projects count result, dayLoop (listResp d) enrich 100 projects count 1 = .ok result

/-- Sample detail response used to evaluate process_repository at a
concrete input (a small repository, ample disk space). -/
def sampleDetails : RepoDetails :=
  { id := 1, full_name := "octo/demo", html_url := "https://example.com/octo/demo",
    stargazers_count := 60, language := none, description := none, topics := [],
    size := 100, updated_at := "2024-01-01T00:00:00Z", pushed_at := "2024-01-02T00:00:00Z" }

/-- Sample catalog entry for repository id 7. -/
def sampleEntry7 : Entry :=
  { id := 7, name := "octo/demo", url := "https://example.com/octo/demo", stars := 60,
    language := none, keywords := ["Tool"], new_open_issues := 0, new_stars_30d := 0,
    contributors := 0, code_line_count := 0, last_updated_repo := "2024-01-01T00:00:00Z",
    pushed_at := "2024-01-02T00:00:00Z", date_fetched := "2024-02-01T00:00:00Z" }

/-- Sample catalog entry for repository id 5. -/
def sampleEntry5 : Entry :=
  { id := 5, name := "octo/known", url := "https://example.com/octo/known", stars := 70,
    language := some "Rust", keywords := ["Cli"], new_open_issues := 2, new_stars_30d := 3,
    contributors := 4, code_line_count := 0, last_updated_repo := "2024-01-01T00:00:00Z",
    pushed_at := "2024-01-02T00:00:00Z", date_fetched := "2024-02-01T00:00:00Z" }

/-- Listing oracle for a run whose every search request fails at the
transport layer (the client returns null, hence an empty page). -/
def listRespFail : Nat → Nat → Option (List Repo) := fun _ _ => none

/-- Listing oracle for the resumed run: day 0 page 1 now succeeds and
yields repository 7. -/
def listRespResume : Nat → Nat → Option (List Repo) :=
  fun d p => if d = 0 ∧ p = 1 then some [{ id := 7, full_name := "octo/demo" }] else none

/-- Enrichment oracle: repository 7 enriches to sampleEntry7 consuming
five requests; everything else yields no record. -/
def enrichSample : Repo → Except String (Option Entry) × Nat :=
  fun r => if r.id = 7 then (.ok (some sampleEntry7), 5) else (.ok none, 0)

/-- Listing oracle that yields the already-known repository 5 on day 0
page 1. -/
def listRespKnown : Nat → Nat → Option (List Repo) :=
  fun d p => if d = 0 ∧ p = 1 then some [{ id := 5, full_name := "octo/known" }] else none

/-- An enrichment oracle that would overwrite repository 5 if it were
consulted for it. -/
def enrichOverwrite : Repo → Except String (Option Entry) × Nat :=
  fun r => if r.id = 5 then (.ok (some sampleEntry7), 1) else (.ok none, 0)

/-- An enrichment oracle that would raise if it were consulted for
repository 5. -/
def enrichRaise : Repo → Except String (Option Entry) × Nat :=
  fun r => if r.id = 5 then (.error "boom", 1) else (.ok none, 0)

/-- Event feed for the three-page walker scenario: page 1 holds fifty
in-window WatchEvents, page 2 starts with an event older than the
window, page 3 would hold another in-window WatchEvent if it were ever
requested. -/
def sampleFeed : Nat → Option (List Event × Bool) :=
  fun p =>
    if p = 1 then some (List.replicate 50 { created_at := 10, type := "WatchEvent" }, true)
    else if p = 2 then some ([{ created_at := 0, type := "WatchEvent" }], true)
    else some ([{ created_at := 10, type := "WatchEvent" }], true)

/-! Helper lemmas. -/

theorem dictLookup_append (projects l : Catalog) (id : Nat) (e : Entry)
    (h : dictLookup projects id = some e) : dictLookup (projects ++ l) id = some e := by
  induction projects with
  | nil => simp [dictLookup] at h
  | cons kv rest ih =>
    obtain ⟨k, v⟩ := kv
    by_cases hk : k = id
    · simp only [dictLookup, if_pos hk] at h
      simp only [List.cons_append, dictLookup, if_pos hk]
      exact h
    · simp only [dictLookup, if_neg hk] at h
      simp only [List.cons_append, dictLookup, if_neg hk]
      exact ih h

theorem repoFold_preserves (enrich : Repo → Except String (Option Entry) × Nat)
    (id : Nat) (e : Entry) :
    ∀ (repos : List Repo) (projects : Catalog) (used : Nat),
      dictLookup projects id = some e →
      dictLookup (resultCatalog (repoFold enrich repos projects used)) id = some e := by
  intro repos
  induction repos with
  | nil => intro projects used h; simpa [repoFold, resultCatalog] using h
  | cons r rest ih =>
    intro projects used h
    simp only [repoFold]
    by_cases hk : (dictLookup projects r.id).isNone
    · rw [if_pos hk]
      rcases henr : enrich r with ⟨res, u⟩
      rcases res with e2 | oe
      · simpa [resultCatalog] using h
      · rcases oe with _ | entry
        · exact ih projects (used + u) h
        · exact ih (projects ++ [(r.id, entry)]) (used + u) (dictLookup_append _ _ _ _ h)
    · rw [if_neg hk]
      exact ih projects used h

theorem dayLoop_preserves (listResp : Nat → Option (List Repo))
    (enrich : Repo → Except String (Option Entry) × Nat) (per_page : Nat)
    (id : Nat) (e : Entry) :
    ∀ (projects : Catalog) (count page : Nat),
      dictLookup projects id = some e →
      dictLookup (resultCatalog (dayLoop listResp enrich per_page projects count page)) id
        = some e := by
  intro projects count page
  induction projects, count, page using dayLoop.induct listResp enrich per_page with
  | case1 projects count page hbudget =>
    intro h
    rw [dayLoop, if_pos hbudget]
    simpa [resultCatalog] using h
  | case2 projects count page hbudget repos hempty =>
    intro h
    rw [dayLoop, if_neg hbudget]
    simp only [hempty, if_pos]
    simpa [resultCatalog] using h
  | case3 projects count page hbudget repos hne ep hfold =>
    intro h
    rw [dayLoop, if_neg hbudget]
    simp only [hne, if_neg, hfold]
    have := repoFold_preserves enrich id e repos projects 0 h
    rwa [hfold] at this
  | case4 projects count page hbudget repos hne projects2 used hfold hlt =>
    intro h
    rw [dayLoop, if_neg hbudget]
    simp only [hne, if_neg, hfold, hlt, if_pos]
    have := repoFold_preserves enrich id e repos projects 0 h
    rw [hfold] at this
    simpa [resultCatalog] using this
  | case5 projects count page hbudget repos hne projects2 used hfold hge ih =>
    intro h
    rw [dayLoop, if_neg hbudget]
    simp only [hne, if_neg, hfold, hge, if_neg]
    have hp2 : dictLookup projects2 id = some e := by
      have := repoFold_preserves enrich id e repos projects 0 h
      rwa [hfold] at this
    exact ih hp2

theorem crawlDays_preserves (listResp : Nat → Nat → Option (List Repo))
    (enrich : Repo → Except String (Option Entry) × Nat) (id : Nat) (e : Entry) :
    ∀ (current endDate : Nat) (projects : Catalog) (count last_successful : Nat),
      dictLookup projects id = some e →
      dictLookup (crawlDays listResp enrich current endDate projects count last_successful).2 id
        = some e := by
  intro current endDate projects count last_successful
  induction current, endDate, projects, count, last_successful
    using crawlDays.induct listResp enrich with
  | case1 current endDate projects count last hle fst projErr hday =>
    intro h
    rw [crawlDays, if_pos hle, hday]
    have := dayLoop_preserves (listResp current) enrich 100 id e projects count 1 h
    rwa [hday] at this
  | case2 current endDate projects count last hle projects2 count2 hday ih =>
    intro h
    rw [crawlDays, if_pos hle, hday]
    have hp2 : dictLookup projects2 id = some e := by
      have := dayLoop_preserves (listResp current) enrich 100 id e projects count 1 h
      rwa [hday] at this
    exact ih hp2
  | case3 current endDate projects count last hle =>
    intro h
    rw [crawlDays, if_neg hle]
    exact h

theorem crawlDays_cursor_spec (listResp : Nat → Nat → Option (List Repo))
    (enrich : Repo → Except String (Option Entry) × Nat) :
    ∀ (current endDate : Nat) (projects : Catalog) (count last_successful : Nat),
      (crawlDays listResp enrich current endDate projects count last_successful).1
          = last_successful ∨
      (current ≤ (crawlDays listResp enrich current endDate projects count last_successful).1 ∧
       (crawlDays listResp enrich current endDate projects count last_successful).1 ≤ endDate ∧
       completedDay listResp enrich
         (crawlDays listResp enrich current endDate projects count last_successful).1) := by
  intro current endDate projects count last_successful
  induction current, endDate, projects, count, last_successful
    using crawlDays.induct listResp enrich with
  | case1 current endDate projects count last hle fst projErr hday =>
    left
    rw [crawlDays, if_pos hle, hday]
  | case2 current endDate projects count last hle projects2 count2 hday ih =>
    rw [crawlDays, if_pos hle, hday]
    rcases ih with heq | ⟨h1, h2, h3⟩
    · right
      refine ⟨le_of_eq heq.symm, ?_, ?_⟩
      · rw [heq]; exact hle
      · rw [heq]; exact ⟨projects, count, (projects2, count2), hday⟩
    · right
      exact ⟨le_trans (Nat.le_succ current) h1, h2, h3⟩
  | case3 current endDate projects count last hle =>
    left
    rw [crawlDays, if_neg hle]

theorem repoFold_congr (E E2 : Repo → Except String (Option Entry) × Nat)
    (id : Nat) (e : Entry)
    (hagree : ∀ r : Repo, r.id ≠ id → E r = E2 r) :
    ∀ (repos : List Repo) (projects : Catalog) (used : Nat),
      dictLookup projects id = some e →
      repoFold E repos projects used = repoFold E2 repos projects used := by
  intro repos
  induction repos with
  | nil => intro projects used h; rfl
  | cons r rest ih =>
    intro projects used h
    simp only [repoFold]
    by_cases hk : (dictLookup projects r.id).isNone
    · have hne : r.id ≠ id := by
        intro heq
        rw [heq, h] at hk
        simp at hk
      rw [if_pos hk, if_pos hk, hagree r hne]
      rcases henr : E2 r with ⟨res, u⟩
      rcases res with e2 | oe
      · rfl
      · rcases oe with _ | entry
        · exact ih projects (used + u) h
        · exact ih (projects ++ [(r.id, entry)]) (used + u) (dictLookup_append _ _ _ _ h)
    · rw [if_neg hk, if_neg hk]
      exact ih projects used h

theorem dayLoop_congr (listResp : Nat → Option (List Repo))
    (E E2 : Repo → Except String (Option Entry) × Nat) (per_page : Nat)
    (id : Nat) (e : Entry)
    (hagree : ∀ r : Repo, r.id ≠ id → E r = E2 r) :
    ∀ (projects : Catalog) (count page : Nat),
      dictLookup projects id = some e →
      dayLoop listResp E per_page projects count page
        = dayLoop listResp E2 per_page projects count page := by
  intro projects count page
  induction projects, count, page using dayLoop.induct listResp E per_page with
  | case1 projects count page hbudget =>
    intro h
    rw [dayLoop, dayLoop, if_pos hbudget, if_pos hbudget]
  | case2 projects count page hbudget repos hempty =>
    intro h
    rw [dayLoop, dayLoop, if_neg hbudget, if_neg hbudget]
    simp only [hempty, if_pos]
  | case3 projects count page hbudget repos hne ep hfold =>
    intro h
    rw [dayLoop, dayLoop, if_neg hbudget, if_neg hbudget]
    simp only [hne, if_neg, hfold]
    rw [← repoFold_congr E E2 id e hagree repos projects 0 h, hfold]
  | case4 projects count page hbudget repos hne projects2 used hfold hlt =>
    intro h
    rw [dayLoop, dayLoop, if_neg hbudget, if_neg hbudget]
    simp only [hne, if_neg, hfold, hlt, if_pos]
    rw [← repoFold_congr E E2 id e hagree repos projects 0 h, hfold]
  | case5 projects count page hbudget repos hne projects2 used hfold hge ih =>
    intro h
    have hp2 : dictLookup projects2 id = some e := by
      have := repoFold_preserves E id e repos projects 0 h
      rwa [hfold] at this
    rw [dayLoop, dayLoop, if_neg hbudget, if_neg hbudget]
    simp only [hne, if_neg]
    rw [← repoFold_congr E E2 id e hagree repos projects 0 h, hfold]
    simp only [hge, if_neg, if_false, Bool.false_eq_true]
    exact ih hp2

theorem crawlDays_congr (listResp : Nat → Nat → Option (List Repo))
    (E E2 : Repo → Except String (Option Entry) × Nat)
    (id : Nat) (e : Entry)
    (hagree : ∀ r : Repo, r.id ≠ id → E r = E2 r) :
    ∀ (current endDate : Nat) (projects : Catalog) (count last_successful : Nat),
      dictLookup projects id = some e →
      crawlDays listResp E current endDate projects count last_successful
        = crawlDays listResp E2 current endDate projects count last_successful := by
  intro current endDate projects count last_successful
  induction current, endDate, projects, count, last_successful
    using crawlDays.induct listResp E with
  | case1 current endDate projects count last hle fst projErr hday =>
    intro h
    rw [crawlDays, crawlDays, if_pos hle, if_pos hle]
    rw [← dayLoop_congr (listResp current) E E2 100 id e hagree projects count 1 h, hday]
  | case2 current endDate projects count last hle projects2 count2 hday ih =>
    intro h
    have hp2 : dictLookup projects2 id = some e := by
      have := dayLoop_preserves (listResp current) E 100 id e projects count 1 h
      rwa [hday] at this
    rw [crawlDays, crawlDays, if_pos hle, if_pos hle]
    rw [← dayLoop_congr (listResp current) E E2 100 id e hagree projects count 1 h, hday]
    exact ih hp2
  | case3 current endDate projects count last hle =>
    intro h
    rw [crawlDays, crawlDays, if_neg hle, if_neg hle]

theorem scanEvents_all_watch (ds : Int) :
    ∀ (evs : List Event) (c : Nat),
      (∀ e ∈ evs, e.type = "WatchEvent" ∧ ds ≤ e.created_at) →
      scanEvents ds evs c = (c + evs.length, false) := by
  intro evs
  induction evs with
  | nil => intro c h; simp [scanEvents]
  | cons e rest ih =>
    intro c h
    obtain ⟨ht, hc⟩ := h e (by simp)
    have hrest : ∀ x ∈ rest, x.type = "WatchEvent" ∧ ds ≤ x.created_at :=
      fun x hx => h x (by simp [hx])
    simp only [scanEvents]
    rw [if_neg (by omega), if_pos ht, ih (c + 1) hrest]
    simp only [List.length_cons, Prod.mk.injEq, and_true]
    omega

theorem starsLoop_pages (feed : Nat → Option (List Event × Bool)) (ds : Int) :
    ∀ (page count : Nat) (fetched : List Nat),
      page ≤ 3 → (∀ q ∈ fetched, q ≤ 3) →
      ∀ q ∈ (starsLoop feed ds page count fetched).2, q ≤ 3 := by
  intro page count fetched
  induction page, count, fetched using starsLoop.induct feed ds with
  | case1 page count fetched hfeed =>
    intro hpage hfetched q hq
    rw [starsLoop] at hq
    simp only [hfeed] at hq
    rcases List.mem_append.mp hq with hin | hin
    · exact hfetched q hin
    · simp at hin; omega
  | case2 page count fetched events hasNext hfeed hempty =>
    intro hpage hfetched q hq
    rw [starsLoop] at hq
    simp only [hfeed, hempty, if_pos] at hq
    rcases List.mem_append.mp hq with hin | hin
    · exact hfetched q hin
    · simp at hin; omega
  | case3 page count fetched events hasNext hfeed hempty c hscan =>
    intro hpage hfetched q hq
    rw [starsLoop] at hq
    simp only [hfeed, hempty, if_neg, hscan] at hq
    rcases List.mem_append.mp hq with hin | hin
    · exact hfetched q hin
    · simp at hin; omega
  | case4 page count fetched events hasNext hfeed hempty c hscan hnext =>
    intro hpage hfetched q hq
    rw [starsLoop] at hq
    simp only [hfeed, hempty, if_neg, hscan, hnext, if_pos] at hq
    rcases List.mem_append.mp hq with hin | hin
    · exact hfetched q hin
    · simp at hin; omega
  | case5 page count fetched events hasNext hfeed hempty c hscan hnext hlimit =>
    intro hpage hfetched q hq
    rw [starsLoop] at hq
    simp only [hfeed, hempty, if_neg, hscan, hnext, hlimit, if_pos] at hq
    rcases List.mem_append.mp hq with hin | hin
    · exact hfetched q hin
    · simp at hin; omega
  | case6 page count fetched fetched2 events hasNext hfeed hempty c hscan hnext hlimit ih =>
    intro hpage hfetched q hq
    rw [starsLoop] at hq
    simp only [hfeed, hempty, if_neg, hscan, hnext, hlimit] at hq
    refine ih ?_ ?_ q ?_
    · omega
    · intro q2 hq2
      rcases List.mem_append.mp hq2 with hin | hin
      · exact hfetched q2 hin
      · simp at hin; omega
    · exact hq

theorem renderKeywords_length (normalized : List String) :
    (renderKeywords normalized).length ≤ 3 := by
  simp only [renderKeywords, List.length_map, List.length_take]
  omega

theorem applyFallback_length (final_keywords : List String) (language : Option String)
    (h : final_keywords.length ≤ 3) :
    1 ≤ (applyFallback final_keywords language).length ∧
    (applyFallback final_keywords language).length ≤ 3 := by
  unfold applyFallback
  by_cases he : final_keywords.isEmpty
  · rw [if_pos he]
    rcases language with _ | l
    · simp
    · by_cases hl : ¬ l.isEmpty = true ∧ l ≠ "N/A"
      · simp [hl]
      · simp [hl]
        split <;> simp
  · rw [if_neg he]
    have : final_keywords ≠ [] := by
      intro hnil; rw [hnil] at he; simp at he
    exact ⟨List.length_pos.mpr this, h⟩

theorem rat_ceiling_iff (n : Nat) : ((n : ℚ) / 1024 > 500) ↔ 512000 < n := by
  rw [gt_iff_lt, lt_div_iff₀ (by norm_num : (0 : ℚ) < 1024)]
  norm_cast

theorem skip_decide_eq (n : Nat) :
    decide ((n : ℚ) / 1024 > 500) = decide (512000 < n) := by
  simp only [decide_eq_decide]
  exact rat_ceiling_iff n

/-! Claim theorems. -/

/-- C1: the claim that process_repository assembles the Catalog Entry and
never raises past its boundary, every sub-fetch failure degrading only
its own field, is contradicted by the code: while the contributor,
issue, star and readme sub-fetches do degrade to zero or empty on
failure (conjuncts two to five), the code-line-count step raises a
TypeError on every input that passes the disk check (its helper call
passes two positional arguments to a one-parameter function, and the
result would then have .split called on an int), and nothing in
process_repository catches it, so the whole record is aborted.  Here a
small repository with ample disk space and every other sub-fetch failing
makes process_repository raise. -/
theorem C1_process_repository_raises_on_code_line_count :
    process_repository (some sampleDetails) none none (fun _ => none) 0 (fun _ => none)
        (some 1000000000000) "2024-02-01T00:00:00Z"
      = .error "TypeError: _count_code_lines takes from 0 to 1 positional arguments but 2 were given" ∧
    get_contributors_count none = 0 ∧
    get_recent_open_issues_count none = 0 ∧
    get_readme (fun _ => none) = "" ∧
    (get_new_stars_count (fun _ => none) 0).1 = 0 := by
  refine ⟨rfl, rfl, rfl, rfl, ?_⟩
  simp [get_new_stars_count, starsLoop]

/-- C2 counterexample: the claim says the code-line-count step is skipped
(returning zero, with no clone attempted) whenever disk space is
insufficient OR the reported size exceeds 500MB.  The source condition is
a conjunction, so each disjunct alone does not skip: a 1GB repository
with ample free disk is cloned (first conjunct; the Bool true records
that the clone was reached), and a 100KB repository with zero free disk
is cloned too (second conjunct).  In neither case is zero returned. -/
theorem C2_counterexample_single_condition_not_skipped :
    get_code_line_count (some 1000000000000000) (1024 * 1024)
      = (true, .error "TypeError: _count_code_lines takes from 0 to 1 positional arguments but 2 were given") ∧
    get_code_line_count (some 0) 100
      = (true, .error "TypeError: _count_code_lines takes from 0 to 1 positional arguments but 2 were given") := by
  constructor
  · rfl
  · simp [get_code_line_count, skip_decide_eq]
    norm_num

/-- C2 amended: the code-line-count step is skipped entirely, returning
zero with no clone attempted, whenever available disk space is
insufficient for the repository's reported size AND the reported size
exceeds the fixed 500MB ceiling (the source condition is a conjunction,
not a disjunction). -/
theorem C2_skip_zero_when_low_disk_and_oversized (free repo_size : Nat)
    (h1 : free < repo_size * 1024) (h2 : 500 < (repo_size : ℚ) / 1024) :
    get_code_line_count (some free) repo_size = (false, .ok 0) := by
  simp [get_code_line_count, h1, h2]

/-- C2 witness: a 513000KB repository with no free disk is skipped with
result zero and no clone. -/
theorem C2_skip_zero_witness : get_code_line_count (some 0) 513000 = (false, .ok 0) :=
  C2_skip_zero_when_low_disk_and_oversized 0 513000 (by norm_num) (by norm_num)

/-- C3: the request counter is monotonically non-decreasing across every
call to _make_request (a successful call moves it from c to c + 1), and
a call attempted at or above MAX_REQUESTS raises, leaving the counter
unchanged. -/
theorem C3_request_budget_monotone_and_fatal {α : Type}
    (request_count : Nat) (transport : Option α) :
    (∀ (c : Nat) (r : Option α),
      make_request request_count transport = .ok (c, r) → request_count ≤ c) ∧
    (MAX_REQUESTS ≤ request_count →
      make_request request_count transport
        = .error ("Request limit reached", request_count)) := by
  constructor
  · intro c r hok
    unfold make_request at hok
    split at hok
    · simp at hok
    · simp only [Except.ok.injEq, Prod.mk.injEq] at hok
      obtain ⟨hc, _⟩ := hok
      omega
  · intro hb
    unfold make_request
    rw [if_pos hb]

/-- C3 witness: a call below the ceiling moves the counter from 5 to 6;
a call at the ceiling raises with the counter still 2000. -/
theorem C3_request_budget_witness :
    5 ≤ 6 ∧
    @make_request Nat 2000 (some 9) = .error ("Request limit reached", 2000) :=
  ⟨(C3_request_budget_monotone_and_fatal 5 (some 9)).1 6 (some 9) rfl,
   (C3_request_budget_monotone_and_fatal 2000 (some 9)).2 (by norm_num [MAX_REQUESTS])⟩

/-- C4: the cursor persisted by the finally block at the end of any run
(normal exit or mid-day fatal error) is at least the cursor loaded at
the start, and is either that loaded cursor itself or a day whose inner
pagination loop ran to completion (never a partially processed day). -/
theorem C4_cursor_never_regresses (listResp : Nat → Nat → Option (List Repo))
    (enrich : Repo → Except String (Option Entry) × Nat)
    (start endDate : Nat) (projects : Catalog) :
    start ≤ save_progress (mainRun listResp enrich start endDate projects).1 ∧
    ((mainRun listResp enrich start endDate projects).1 = start ∨
      ((mainRun listResp enrich start endDate projects).1 ≤ endDate ∧
       completedDay listResp enrich (mainRun listResp enrich start endDate projects).1)) := by
  have hspec := crawlDays_cursor_spec listResp enrich start endDate projects 0 start
  unfold mainRun save_progress
  unfold mainRun at hspec
  rcases hspec with heq | ⟨h1, h2, h3⟩
  · exact ⟨le_of_eq heq.symm, Or.inl heq⟩
  · exact ⟨h1, Or.inr ⟨h2, h3⟩⟩

/-- C5: an identity already present in the in-memory catalog (such as an
entry seeded from the persisted catalog at load time) is skipped by the
crawl loop for the whole run: its entry is still present and unchanged
in the catalog the run persists, and the run's entire outcome is
independent of what the enrichment would do for that identity (it is
never re-enriched). -/
theorem C5_known_identity_skipped (listResp : Nat → Nat → Option (List Repo))
    (E E2 : Repo → Except String (Option Entry) × Nat)
    (start endDate : Nat) (projects : Catalog) (id : Nat) (e : Entry)
    (hin : dictLookup projects id = some e)
    (hagree : ∀ r : Repo, r.id ≠ id → E r = E2 r) :
    dictLookup (mainRun listResp E start endDate projects).2 id = some e ∧
    mainRun listResp E start endDate projects
      = mainRun listResp E2 start endDate projects := by
  constructor
  · exact crawlDays_preserves listResp E id e start endDate projects 0 start hin
  · unfold mainRun
    exact crawlDays_congr listResp E E2 id e hagree start endDate projects 0 start hin

/-- C5 witness: repository 5, seeded into the catalog by load_progress
from the persisted projects file, survives a run that lists it again
(the oracle would overwrite it with different data if consulted), and
the run is identical whether the enrichment for id 5 would overwrite or
raise. -/
theorem C5_known_identity_witness :
    dictLookup (mainRun listRespKnown enrichOverwrite 0 0
        (load_progress (.parsed (some "2008-01-01")) (.parsed (some [sampleEntry5]))).2).2 5
      = some sampleEntry5 ∧
    mainRun listRespKnown enrichOverwrite 0 0 [(5, sampleEntry5)]
      = mainRun listRespKnown enrichRaise 0 0 [(5, sampleEntry5)] :=
  ⟨(C5_known_identity_skipped listRespKnown enrichOverwrite enrichOverwrite 0 0
      (load_progress (.parsed (some "2008-01-01")) (.parsed (some [sampleEntry5]))).2
      5 sampleEntry5 rfl (fun _ _ => rfl)).1,
   (C5_known_identity_skipped listRespKnown enrichOverwrite enrichRaise 0 0
      [(5, sampleEntry5)] 5 sampleEntry5 rfl
      (fun r hr => by simp [enrichOverwrite, enrichRaise, hr])).2⟩

/-- C6: generate_keywords is a pure function (identical inputs give the
identical result) and its result always has between 1 and 3 labels:
never zero (the language or Tool fallback fires when no category was
found) and never more than 3 after the truncation to the first three
accumulated categories. -/
theorem C6_keywords_deterministic_and_bounded (topics : List String)
    (description : Option String) (readme_content : String)
    (language : Option String) :
    generate_keywords topics description readme_content language
      = generate_keywords topics description readme_content language ∧
    1 ≤ (generate_keywords topics description readme_content language).length ∧
    (generate_keywords topics description readme_content language).length ≤ 3 := by
  refine ⟨rfl, ?_⟩
  unfold generate_keywords
  exact applyFallback_length _ _ (renderKeywords_length _)

/-- C7: with a three-page event feed whose first page holds fifty
WatchEvents inside the trailing window and whose second page opens with
an event older than the window, get_new_stars_count returns 50 having
requested exactly pages 1 and 2 (page 3 is never fetched); in general no
page beyond 3 is ever requested, and the per-page scan stops with its
running count the moment it sees an event older than the window. -/
theorem C7_event_window_walker (feed : Nat → Option (List Event × Bool)) (ds : Int)
    (evs : List Event) (e2 : Event) (rest2 : List Event) (hasNext2 : Bool)
    (h1 : feed 1 = some (evs, true)) (h2 : evs.length = 50)
    (h3 : ∀ e ∈ evs, e.type = "WatchEvent" ∧ ds ≤ e.created_at)
    (h4 : feed 2 = some (e2 :: rest2, hasNext2)) (h5 : e2.created_at < ds) :
    get_new_stars_count feed ds = (50, [1, 2]) ∧
    (∀ (feed2 : Nat → Option (List Event × Bool)) (ds2 : Int),
      ∀ p ∈ (get_new_stars_count feed2 ds2).2, p ≤ 3) ∧
    (∀ (ds2 : Int) (c : Nat) (ev : Event) (tail : List Event),
      ev.created_at < ds2 → scanEvents ds2 (ev :: tail) c = (c, true)) := by
  refine ⟨?_, ?_, ?_⟩
  · have hne : evs.isEmpty = false := by
      cases evs
      · simp at h2
      · rfl
    have hscan : scanEvents ds evs 0 = (50, false) := by
      rw [scanEvents_all_watch ds evs 0 h3, h2]
    have hscan2 : scanEvents ds (e2 :: rest2) 50 = (50, true) := by
      simp only [scanEvents, if_pos h5]
    unfold get_new_stars_count
    rw [starsLoop]
    simp only [h1, hne, hscan, Bool.not_true, Bool.false_eq_true, if_false,
      List.nil_append]
    norm_num
    rw [starsLoop]
    simp only [h4, hscan2]
    cases e2 :: rest2 with
    | nil => simp_all
    | cons a l => simp
  · intro feed2 ds2 p hp
    exact starsLoop_pages feed2 ds2 1 0 [] (by omega) (by simp) p hp
  · intro ds2 c ev tail hev
    simp only [scanEvents, if_pos hev]

/-- C7 witness: the fabricated feed sampleFeed with window boundary 5
returns 50 and fetches only pages 1 and 2. -/
theorem C7_event_window_walker_witness :
    get_new_stars_count sampleFeed 5 = (50, [1, 2]) :=
  (C7_event_window_walker sampleFeed 5
    (List.replicate 50 { created_at := 10, type := "WatchEvent" })
    { created_at := 0, type := "WatchEvent" } [] true
    rfl (by simp)
    (by
      intro e he
      rw [List.eq_of_mem_replicate he]
      exact ⟨rfl, by norm_num⟩)
    rfl (by norm_num)).1

/-- C8: when the checkpoint file is absent, load_progress returns the
hardcoded origin cursor 2008-01-01 and an empty catalog, whatever the
persisted projects file holds (the early return never reads it). -/
theorem C8_load_absent_returns_origin_and_empty
    (projectsFile : FileRead (Option (List Entry))) :
    load_progress .absent projectsFile = ("2008-01-01", []) := rfl

/-- C9: the demand index equals new_open_issues / new_stars whenever
new_stars is positive and equals the raw new_open_issues count when
new_stars is zero, never dividing by zero. -/
theorem C9_demand_index_guards_zero (new_open_issues new_stars : Nat) :
    (0 < new_stars →
      demand_index new_open_issues new_stars
        = (new_open_issues : ℚ) / new_stars) ∧
    (new_stars = 0 →
      demand_index new_open_issues new_stars = new_open_issues) := by
  constructor
  · intro h
    unfold demand_index
    rw [if_pos h]
  · intro h
    unfold demand_index
    rw [if_neg (by omega)]

/-- C9 witness: four issues over two stars gives two; five issues with
zero stars gives five. -/
theorem C9_demand_index_witness :
    demand_index 4 2 = (4 : ℚ) / 2 ∧ demand_index 5 0 = 5 := by
  constructor
  · have h := (C9_demand_index_guards_zero 4 2).1 (by norm_num)
    rw [h]
    norm_num
  · have h := (C9_demand_index_guards_zero 5 0).2 rfl
    rw [h]
    norm_num

/-- C10 counterexample: the claim ends with the consequence that
repositories of a day whose listing request failed are permanently
skipped on resume.  Run one: every listing request fails, so day 0 is
treated as exhausted and the run persists cursor 0 with an empty catalog
(repository 7, created on day 0, was never fetched).  Run two resumes
from that same persisted cursor 0, which re-lists day 0 from page 1, and
repository 7 IS fetched and catalogued ; hence not permanently skipped. -/
theorem C10_counterexample_refetched_on_resume :
    mainRun listRespFail enrichSample 0 0 [] = (0, []) ∧
    mainRun listRespResume enrichSample 0 0 [] = (0, [(7, sampleEntry7)]) ∧
    dictLookup (mainRun listRespResume enrichSample 0 0 []).2 7 = some sampleEntry7 := by
  have h1 : mainRun listRespFail enrichSample 0 0 [] = (0, []) := by
    simp [mainRun, crawlDays, dayLoop, list_repositories, listRespFail, MAX_REQUESTS]
  have h2 : mainRun listRespResume enrichSample 0 0 [] = (0, [(7, sampleEntry7)]) := by
    simp [mainRun, crawlDays, dayLoop, repoFold, list_repositories, listRespResume,
      enrichSample, dictLookup, MAX_REQUESTS]
  refine ⟨h1, h2, ?_⟩
  rw [h2]
  rfl

/-- C10 amended: a failed listing request yields an empty page, making
the day indistinguishable from an exhausted one: the inner pagination
loop exits normally with the catalog untouched, the day is recorded as
the last successful one and the crawl advances past it for the remainder
of the current run.  (Not proved, because false, is permanence across
runs: the persisted cursor equals that very day, so a resume re-lists it
from page 1 — see the counterexample.) -/
theorem C10_failed_listing_completes_day (listResp : Nat → Nat → Option (List Repo))
    (enrich : Repo → Except String (Option Entry) × Nat)
    (current endDate : Nat) (projects : Catalog) (count last_successful : Nat)
    (hday : current ≤ endDate) (hbudget : count < MAX_REQUESTS)
    (hfail : listResp current 1 = none) :
    dayLoop (listResp current) enrich 100 projects count 1 = .ok (projects, count + 1) ∧
    crawlDays listResp enrich current endDate projects count last_successful
      = crawlDays listResp enrich (current + 1) endDate projects (count + 1) current := by
  have hd : dayLoop (listResp current) enrich 100 projects count 1
      = .ok (projects, count + 1) := by
    rw [dayLoop, if_neg (by omega)]
    simp [hfail, list_repositories]
  refine ⟨hd, ?_⟩
  rw [crawlDays, if_pos hday, hd]

/-- C10 amended witness: on a run over the single day 0 whose listing
fails, the day loop ends normally and the crawl steps past day 0 with it
recorded as successful. -/
theorem C10_failed_listing_witness :
    dayLoop (listRespFail 0) enrichSample 100 [] 0 1 = .ok ([], 1) ∧
    crawlDays listRespFail enrichSample 0 0 [] 0 0
      = crawlDays listRespFail enrichSample 1 0 [] 1 0 :=
  C10_failed_listing_completes_day listRespFail enrichSample 0 0 [] 0 0
    (le_refl 0) (by norm_num [MAX_REQUESTS]) rfl
